import Mathlib

/-!
Verification of the NYC DOB job-application-filings processing pipeline
(scripts/data_processing.py): the date parsing and year filter of
process_data, its 11-column group-by aggregation, the long-form indicator
reshape of create_visualizations, and the driver's control flow in main.
Tables are modelled as lists of rows; numeric columns use exact rationals;
a missing value (pandas NaN / NaT / null) is modelled by Option.
-/

/-- A calendar date (year, month, day): the model of a non-null value in the
Date_Approved column produced by pd.to_datetime. -/
structure Date where
  year : Nat
  month : Nat
  day : Nat
deriving DecidableEq, Repr

/-- Gregorian leap-year rule, as the datetime library applies it. -/
def isLeap (y : Nat) : Bool :=
  y % 4 == 0 && (y % 100 != 0 || y % 400 == 0)

/-- Days in month m of year y under the Gregorian calendar. -/
def daysInMonth (y m : Nat) : Nat :=
  if m == 2 then (if isLeap y then 29 else 28)
  else if m == 4 || m == 6 || m == 9 || m == 11 then 30
  else 31

/-- Split a character list at every slash, as String.splitOn with separator
slash does: "a//b" gives three fields, the middle one empty. -/
def splitOnSlash : List Char → List (List Char)
  | [] => [[]]
  | c :: cs =>
    match splitOnSlash cs, c == '/' with
    | rest, true => [] :: rest
    | [], false => [[c]]
    | f :: fs, false => (c :: f) :: fs

/-- First codepoints of the runs of ten consecutive Unicode decimal digits
(category Nd, digit values 0 through 9 in codepoint order), from the Unicode
database of the interpreter running the pipeline.  A str-regex backslash-d in
Python matches exactly these characters, and int() reads them positionally. -/
def ndRangeStarts : List Nat :=
  [48, 1632, 1776, 1984, 2406, 2534, 2662, 2790, 2918, 3046, 3174, 3302,
   3430, 3558, 3664, 3792, 3872, 4160, 4240, 6112, 6160, 6470, 6608, 6784,
   6800, 6992, 7088, 7232, 7248, 42528, 43216, 43264, 43472, 43504, 43600,
   44016, 65296, 66720, 68912, 69734, 69872, 69942, 70096, 70384, 70736,
   70864, 71248, 71360, 71472, 71904, 72016, 72784, 73040, 73120, 92768,
   92864, 93008, 120782, 120792, 120802, 120812, 120822, 123200, 123632,
   125264, 130032]

/-- Decimal value of a Unicode decimal digit (category Nd), none otherwise. -/
def decDigit? (c : Char) : Option Nat :=
  (ndRangeStarts.find? fun s =>
      decide (s ≤ c.toNat) && decide (c.toNat < s + 10)).map
    fun s => c.toNat - s

/-- Value of one ASCII digit 1 through 9 (the regex class [1-9]), none for any
other character. -/
def asciiNonzero? (c : Char) : Option Nat :=
  if '1' ≤ c ∧ c ≤ '9' then some (c.toNat - 48) else none

/-- One day field, matched whole against TimeRE's %d pattern
3[01]|[12]d|0[1-9]|[1-9]|space[1-9] (d standing for any Unicode decimal
digit), then read with int(): two-digit days, a bare nonzero digit, a
zero-padded day, or a space-padded day. -/
def dayField? (cs : List Char) : Option Nat :=
  match cs with
  | [c] => asciiNonzero? c
  | [c1, c2] =>
    if c1 = '3' then
      if c2 = '0' then some 30 else if c2 = '1' then some 31 else none
    else if c1 = '1' ∨ c1 = '2' then
      (decDigit? c2).map fun v => 10 * (c1.toNat - 48) + v
    else if c1 = '0' ∨ c1 = ' ' then asciiNonzero? c2
    else none
  | _ => none

/-- One month field, matched whole against TimeRE's %m pattern
1[0-2]|0[1-9]|[1-9]: no space padding and no second Unicode digit here. -/
def monthField? (cs : List Char) : Option Nat :=
  match cs with
  | [c] => asciiNonzero? c
  | [c1, c2] =>
    if c1 = '1' then
      if c2 = '0' then some 10 else if c2 = '1' then some 11
      else if c2 = '2' then some 12 else none
    else if c1 = '0' then asciiNonzero? c2
    else none
  | _ => none

/-- One year field, matched whole against TimeRE's %Y pattern of exactly four
Unicode decimal digits, read positionally as int() does. -/
def yearField? (cs : List Char) : Option Nat :=
  match cs with
  | [c1, c2, c3, c4] =>
    match decDigit? c1, decDigit? c2, decDigit? c3, decDigit? c4 with
    | some v1, some v2, some v3, some v4 =>
      some (1000 * v1 + 100 * v2 + 10 * v3 + v4)
    | _, _, _, _ => none
  | _ => none

/-- Lexicographic comparison of two (year, month, day) triples. -/
def tripleLe (y1 m1 d1 y2 m2 d2 : Nat) : Bool :=
  y1 < y2 || (y1 == y2 && (m1 < m2 || (m1 == m2 && d1 ≤ d2)))

/-- The pandas datetime64[ns] representable window at midnight: dates from
1677-09-22 through 2262-04-11.  pd.to_datetime with errors="coerce" turns the
OutOfBoundsDatetime raised outside this window into NaT. -/
def dateInBounds (y m d : Nat) : Bool :=
  tripleLe 1677 9 22 y m d && tripleLe y m d 2262 4 11

/-- Model of pd.to_datetime(s, format="%d/%m/%Y", errors="coerce") on a single
string.  pandas' array_strptime inherits the stdlib TimeRE regexes, so the
whole string must be three slash-separated fields matching the %d, %m and %Y
patterns (the day field alternatives cannot contain a slash, hence splitting
first loses nothing); the matched fields are read with int(); the triple must
then be a valid Gregorian calendar date (else the datetime construction raises
ValueError) inside the datetime64[ns] window (else OutOfBoundsDatetime).
errors="coerce" turns every failure into NaT, modelled as none. -/
def parseDate (s : String) : Option Date :=
  match splitOnSlash s.data with
  | [df, mf, yf] =>
    match dayField? df, monthField? mf, yearField? yf with
    | some d, some m, some y =>
      if 1 ≤ m ∧ m ≤ 12 ∧ 1 ≤ d ∧ d ≤ daysInMonth y m ∧ dateInBounds y m d = true
      then some ⟨y, m, d⟩ else none
    | _, _, _ => none
  | _ => none

/-- One row of the loaded table.  The ten string key columns, the raw Approved
date string among them, the derived Date_Approved column (recomputed by the
transformer, none = NaT), the three numeric columns, and the twelve indicator
columns used by the reporter.  Option models a missing cell. -/
structure Row where
  borough : Option String
  jobType : Option String
  jobStatus : Option String
  approved : Option String
  jobNum : Option String
  buildingType : Option String
  preFilingDate : Option String
  buildingClass : Option String
  jobDescription : Option String
  fullyPaid : Option String
  dateApproved : Option Date
  gisLat : Option ℚ
  gisLong : Option ℚ
  initialCost : Option ℚ
  plumbing : Option String
  mechanical : Option String
  boiler : Option String
  fuelBurning : Option String
  fuelStorage : Option String
  standpipe : Option String
  sprinkler : Option String
  fireAlarm : Option String
  equipment : Option String
  fireSuppression : Option String
  curbCut : Option String
  other : Option String
deriving DecidableEq, Repr

/-- The 11-column composite aggregation key, in the order the groupby lists it:
Borough, Job Type, Job Status, Approved, Job #, Building Type, Pre- Filing
Date, BUILDING_CLASS, Job Description, Date_Approved, Fully Paid. -/
structure Key where
  borough : String
  jobType : String
  jobStatus : String
  approved : String
  jobNum : String
  buildingType : String
  preFilingDate : String
  buildingClass : String
  jobDescription : String
  dateApproved : Date
  fullyPaid : String
deriving DecidableEq, Repr

/-- The key tuple of a row, if every key column is present.  pandas groupby
keeps its default dropna=True: a row with a null in any key column belongs to
no group. -/
def keyOf (r : Row) : Option Key :=
  match r.borough, r.jobType, r.jobStatus, r.approved, r.jobNum, r.buildingType,
        r.preFilingDate, r.buildingClass, r.jobDescription, r.dateApproved,
        r.fullyPaid with
  | some b, some jt, some js, some ap, some jn, some bt, some pf, some bc,
      some jd, some da, some fp =>
    some ⟨b, jt, js, ap, jn, bt, pf, bc, jd, da, fp⟩
  | _, _, _, _, _, _, _, _, _, _, _ => none

/-- pandas "mean" aggregation of a column: the arithmetic mean of the values
present, NaN (none) when no value is present. -/
def meanOpt (vs : List (Option ℚ)) : Option ℚ :=
  if (vs.filterMap id).length = 0 then none
  else some ((vs.filterMap id).sum / (vs.filterMap id).length)

/-- pandas "sum" aggregation of a column: the sum of the values present,
0 when no value is present. -/
def sumOpt (vs : List (Option ℚ)) : ℚ :=
  (vs.filterMap id).sum

/-- One row of the aggregated output table: the 11 key columns (all non-null by
construction) plus mean GIS_LATITUDE, mean GIS_LONGITUDE, summed Initial Cost. -/
structure AggRow where
  key : Key
  gisLat : Option ℚ
  gisLong : Option ℚ
  initialCost : ℚ
deriving DecidableEq, Repr

/-- The rows of one group: those whose key tuple is k. -/
def groupRows (rows : List Row) (k : Key) : List Row :=
  rows.filter fun r => keyOf r == some k

/-- The aggregated output row of the group keyed k. -/
def aggRowFor (rows : List Row) (k : Key) : AggRow :=
  ⟨k, meanOpt ((groupRows rows k).map Row.gisLat),
      meanOpt ((groupRows rows k).map Row.gisLong),
      sumOpt ((groupRows rows k).map Row.initialCost)⟩

/-- df_filtered.groupby([the 11 key columns]).agg(mean, mean, sum)
.reset_index(): one output row per distinct non-null key tuple.  pandas emits
groups sorted by key; we fix first-occurrence order instead, an order choice
the claims never depend on (they are order-insensitive or stated up to
permutation). -/
def aggregate (rows : List Row) : List AggRow :=
  ((rows.filterMap keyOf).dedup).map (aggRowFor rows)

/-- The transformer's date derivation: Date_Approved is the Approved string run
through to_datetime; a null Approved cell stays NaT. -/
def withDate (r : Row) : Row :=
  { r with dateApproved := r.approved.bind parseDate }

/-- Date_Approved.dt.year.isin([2023, 2024]): false on NaT. -/
def keepYear (r : Row) : Bool :=
  match r.dateApproved with
  | some d => d.year == 2023 || d.year == 2024
  | none => false

/-- The filtered table df_filtered: every row with its derived date, kept when
the year is 2023 or 2024. -/
def filterRows (rows : List Row) : List Row :=
  (rows.map withDate).filter keepYear

/-- process_data: derive Date_Approved, filter to 2023-2024, return an empty
table when nothing survives the filter, otherwise group and aggregate. -/
def process_data (rows : List Row) : List AggRow :=
  let f := filterRows rows
  if f.isEmpty then [] else aggregate f

/-- The twelve indicator columns the reporter melts, in the order
columns_of_interest lists them. -/
def columnsOfInterest : List String :=
  ["Plumbing", "Mechanical", "Boiler", "Fuel Burning", "Fuel Storage",
   "Standpipe", "Sprinkler", "Fire Alarm", "Equipment", "Fire Suppression",
   "Curb Cut", "Other"]

/-- The cell of row r in the named indicator column. -/
def indicatorValue (r : Row) (c : String) : Option String :=
  if c = "Plumbing" then r.plumbing
  else if c = "Mechanical" then r.mechanical
  else if c = "Boiler" then r.boiler
  else if c = "Fuel Burning" then r.fuelBurning
  else if c = "Fuel Storage" then r.fuelStorage
  else if c = "Standpipe" then r.standpipe
  else if c = "Sprinkler" then r.sprinkler
  else if c = "Fire Alarm" then r.fireAlarm
  else if c = "Equipment" then r.equipment
  else if c = "Fire Suppression" then r.fireSuppression
  else if c = "Curb Cut" then r.curbCut
  else if c = "Other" then r.other
  else none

/-- df_filtered.melt(id_vars=[Date_Approved], value_vars=columns_of_interest):
one (date, column name, cell value) triple per indicator column per row,
stacked column by column as pandas melt does. -/
def meltRows (rows : List Row) : List (Option Date × String × Option String) :=
  columnsOfInterest.flatMap fun c =>
    rows.map fun r => (r.dateApproved, c, indicatorValue r c)

/-- The indicator conversion: 1 if the cell is exactly the string X, else 0.
A missing cell also maps to 0, since NaN is not equal to X. -/
def toCount (v : Option String) : Nat :=
  if v = some "X" then 1 else 0

/-- One long-form row after the count conversion.  The Count column could in
principle hold a missing value — dropna is applied to it — so it is typed
Option; the conversion in fact always writes a present value. -/
structure LongRow where
  dateApproved : Option Date
  jobTypeName : String
  count : Option Nat
deriving DecidableEq, Repr

/-- Writing the Count column: every melted triple gets count 1 or 0. -/
def assignCounts (ms : List (Option Date × String × Option String)) :
    List LongRow :=
  ms.map fun m => ⟨m.1, m.2.1, some (toCount m.2.2)⟩

/-- df_long.dropna(subset=[Count]): keep the rows whose Count is present. -/
def dropnaCount (ls : List LongRow) : List LongRow :=
  ls.filter fun lr => lr.count.isSome

/-- The long-form table as the reporter builds it: melt, convert, dropna. -/
def longForm (rows : List Row) : List LongRow :=
  dropnaCount (assignCounts (meltRows rows))

/-- dt.to_period("M"): the (year, month) bucket of a date. -/
def monthOf (d : Date) : Nat × Nat :=
  (d.year, d.month)

/-- The distinct months on the chart's x axis: the month buckets occurring in
the long-form table.  groupby on the month key drops NaT months. -/
def chartMonths (rows : List Row) : List (Nat × Nat) :=
  (List.filterMap (fun lr : LongRow => lr.dateApproved.map monthOf)
    (longForm rows)).dedup

/-- One cell of the month × job-type matrix: the summed counts of the long-form
rows in that month bucket and job-type column. -/
def monthlyCount (rows : List Row) (ym : Nat × Nat) (jt : String) : Nat :=
  ((List.filter
      (fun lr : LongRow =>
        lr.dateApproved.map monthOf == some ym && lr.jobTypeName == jt)
      (longForm rows)).filterMap LongRow.count).sum

/-- Observable outcome of main after the load: the aggregated CSV written (its
rows) and the chart image written (its month axis), both none when the
empty-result early exit fires. -/
structure PipelineResult where
  savedCsv : Option (List AggRow)
  savedChart : Option (List (Nat × Nat))
deriving DecidableEq, Repr

/-- Steps 3-5 of main: process, stop with nothing written when the processed
table is empty, otherwise write the CSV and build the chart from the re-derived
filtered table. -/
def runPipeline (raw : List Row) : PipelineResult :=
  let processed := process_data raw
  if processed.isEmpty then ⟨none, none⟩
  else ⟨some processed, some (chartMonths (filterRows raw))⟩

/-- The filesystem state main's step 1 consults: whether the dated raw file
already exists, and the table it loads to if so. -/
structure FetchState where
  rawFileExists : Bool
  rawFileContents : List Row
deriving Repr

/-- Step 1 of main: download only when the dated raw file is absent.  Returns
the table the run proceeds with and whether a network download happened. -/
def fetchStep (st : FetchState) (remote : List Row) : List Row × Bool :=
  if st.rawFileExists then (st.rawFileContents, false) else (remote, true)

/-- A whole run from the fetch decision on: the pipeline result and the
download flag. -/
def runWithFetch (st : FetchState) (remote : List Row) :
    PipelineResult × Bool :=
  ((runPipeline (fetchStep st remote).1), (fetchStep st remote).2)

/-- The rows of one group when the same groupby is applied to the aggregated
output table, whose key columns are all non-null. -/
def reGroupRows (rows : List AggRow) (k : Key) : List AggRow :=
  rows.filter fun a => a.key == k

/-- The same groupby-agg run on the aggregated output table: mean of the two
coordinate columns (there a mean may be missing, from an all-null group) and
sum of the Initial Cost column (there always a plain number). -/
def reAggregate (rows : List AggRow) : List AggRow :=
  ((rows.map AggRow.key).dedup).map fun k =>
    ⟨k, meanOpt ((reGroupRows rows k).map AggRow.gisLat),
        meanOpt ((reGroupRows rows k).map AggRow.gisLong),
        ((reGroupRows rows k).map AggRow.initialCost).sum⟩

/-- The spec's format predicate, following its words: a date string in
day/month/year form, like 15/03/2023 — three slash-separated fields reading as
day d, month m and year y under the %d/%m/%Y field patterns — denoting a valid
Gregorian calendar date y-m-d. -/
def specDMYFormat (s : String) (d m y : Nat) : Bool :=
  match splitOnSlash s.data with
  | [df, mf, yf] =>
    dayField? df == some d && monthField? mf == some m &&
    yearField? yf == some y && decide (1 ≤ m) && decide (m ≤ 12) &&
    decide (1 ≤ d) && decide (d ≤ daysInMonth y m)
  | _ => false

/-- A filtered-table sample row: every key column present, dated 15/03/2023. -/
def sampleRow1 : Row :=
  { borough := some "MANHATTAN", jobType := some "A2", jobStatus := some "R",
    approved := some "15/03/2023", jobNum := some "100000001",
    buildingType := some "OTHERS", preFilingDate := some "01/02/2023",
    buildingClass := some "R5", jobDescription := some "GEN CONSTR",
    fullyPaid := some "Y", dateApproved := some ⟨2023, 3, 15⟩,
    gisLat := none, gisLong := none, initialCost := some 100,
    plumbing := some "X", mechanical := none, boiler := none,
    fuelBurning := none, fuelStorage := none, standpipe := none,
    sprinkler := none, fireAlarm := none, equipment := none,
    fireSuppression := none, curbCut := none, other := none }

/-- A second sample row with distinct key values, dated 20/11/2024. -/
def sampleRow2 : Row :=
  { borough := some "QUEENS", jobType := some "NB", jobStatus := some "X",
    approved := some "20/11/2024", jobNum := some "400000002",
    buildingType := some "1-2-3 FAMILY", preFilingDate := some "05/06/2024",
    buildingClass := some "A1", jobDescription := some "NEW BUILDING",
    fullyPaid := some "N", dateApproved := some ⟨2024, 11, 20⟩,
    gisLat := none, gisLong := none, initialCost := some 250,
    plumbing := none, mechanical := some "X", boiler := none,
    fuelBurning := none, fuelStorage := none, standpipe := none,
    sprinkler := none, fireAlarm := none, equipment := none,
    fireSuppression := none, curbCut := none, other := none }

theorem aggRowFor_key (rows : List Row) (k : Key) : (aggRowFor rows k).key = k :=
  rfl

theorem aggKeys_nodup (rows : List Row) :
    ((rows.filterMap keyOf).dedup).Nodup :=
  List.nodup_dedup _

theorem mem_aggKeys (rows : List Row) (k : Key) :
    k ∈ (rows.filterMap keyOf).dedup ↔ ∃ r ∈ rows, keyOf r = some k := by
  rw [List.mem_dedup, List.mem_filterMap]

/-- Claim C1: on a nonempty filtered table, the transformer emits exactly one
output row per group of the 11-column composite key (and none for key tuples
held by no row), and each output row carries the arithmetic mean of its group's
GIS_LATITUDE values, the arithmetic mean of its GIS_LONGITUDE values and the
sum of its Initial Cost values. -/
theorem aggregate_one_row_per_group (rows : List Row) (_hne : rows ≠ []) :
    (∀ k : Key,
      (List.filter (fun a : AggRow => a.key == k) (aggregate rows)).length =
        if ∃ r ∈ rows, keyOf r = some k then 1 else 0)
    ∧ ∀ a ∈ aggregate rows,
        a.gisLat = meanOpt ((groupRows rows a.key).map Row.gisLat)
        ∧ a.gisLong = meanOpt ((groupRows rows a.key).map Row.gisLong)
        ∧ a.initialCost = sumOpt ((groupRows rows a.key).map Row.initialCost) := by
  constructor
  · intro k
    have hstep :
        (List.filter (fun a : AggRow => a.key == k) (aggregate rows)).length =
          (List.filter (fun k2 : Key => k2 == k)
            ((rows.filterMap keyOf).dedup)).length := by
      unfold aggregate
      rw [List.filter_map, List.length_map]
      rfl
    rw [hstep]
    have hcount : (List.filter (fun k2 : Key => k2 == k)
        ((rows.filterMap keyOf).dedup)).length =
        List.count k ((rows.filterMap keyOf).dedup) := by
      rw [List.count, List.countP_eq_length_filter]
    rw [hcount]
    by_cases hk : ∃ r ∈ rows, keyOf r = some k
    · rw [if_pos hk]
      exact List.count_eq_one_of_mem (aggKeys_nodup rows)
        ((mem_aggKeys rows k).mpr hk)
    · rw [if_neg hk]
      exact List.count_eq_zero.mpr fun hmem => hk ((mem_aggKeys rows k).mp hmem)
  · intro a ha
    unfold aggregate at ha
    rw [List.mem_map] at ha
    obtain ⟨k2, _, rfl⟩ := ha
    exact ⟨rfl, rfl, rfl⟩

/-- Witness for C1 at the concrete two-row filtered table. -/
theorem aggregate_one_row_per_group_witness :
    (∀ k : Key,
      (List.filter (fun a : AggRow => a.key == k)
        (aggregate [sampleRow1, sampleRow2])).length =
        if ∃ r ∈ [sampleRow1, sampleRow2], keyOf r = some k then 1 else 0)
    ∧ ∀ a ∈ aggregate [sampleRow1, sampleRow2],
        a.gisLat = meanOpt ((groupRows [sampleRow1, sampleRow2] a.key).map Row.gisLat)
        ∧ a.gisLong = meanOpt ((groupRows [sampleRow1, sampleRow2] a.key).map Row.gisLong)
        ∧ a.initialCost = sumOpt ((groupRows [sampleRow1, sampleRow2] a.key).map Row.initialCost) :=
  aggregate_one_row_per_group [sampleRow1, sampleRow2] (List.cons_ne_nil _ _)

theorem meanOpt_singleton (v : Option ℚ) : meanOpt [v] = v := by
  cases v with
  | none => rfl
  | some x =>
    simp [meanOpt, List.filterMap_cons]

theorem meanOpt_perm {v1 v2 : List (Option ℚ)} (h : v1.Perm v2) :
    meanOpt v1 = meanOpt v2 := by
  unfold meanOpt
  rw [(h.filterMap id).length_eq, (h.filterMap id).sum_eq]

theorem sumOpt_perm {v1 v2 : List (Option ℚ)} (h : v1.Perm v2) :
    sumOpt v1 = sumOpt v2 := by
  unfold sumOpt
  rw [(h.filterMap id).sum_eq]

theorem aggRowFor_perm {l1 l2 : List Row} (h : l1.Perm l2) (k : Key) :
    aggRowFor l1 k = aggRowFor l2 k := by
  have hg : (groupRows l1 k).Perm (groupRows l2 k) := h.filter _
  unfold aggRowFor
  rw [meanOpt_perm (hg.map Row.gisLat), meanOpt_perm (hg.map Row.gisLong),
    sumOpt_perm (hg.map Row.initialCost)]

theorem aggregate_perm {l1 l2 : List Row} (h : l1.Perm l2) :
    (aggregate l1).Perm (aggregate l2) := by
  unfold aggregate
  have hd : ((l1.filterMap keyOf).dedup).Perm ((l2.filterMap keyOf).dedup) :=
    (h.filterMap keyOf).dedup
  have heq : (l2.filterMap keyOf).dedup.map (aggRowFor l1) =
      (l2.filterMap keyOf).dedup.map (aggRowFor l2) :=
    List.map_congr_left fun k _ => aggRowFor_perm h k
  exact heq ▸ hd.map (aggRowFor l1)

/-- Claim C4: re-running the group-by aggregation on its own output (same 11
key columns, mean of the two coordinate columns, sum of the cost column)
returns the output unchanged, for every input table. -/
theorem aggregate_idempotent (rows : List Row) :
    reAggregate (aggregate rows) = aggregate rows := by
  unfold reAggregate
  have hkeys : (aggregate rows).map AggRow.key = (rows.filterMap keyOf).dedup := by
    unfold aggregate
    rw [List.map_map]
    exact (List.map_congr_left fun k _ => rfl).trans (List.map_id _)
  rw [hkeys, List.Nodup.dedup (aggKeys_nodup rows)]
  unfold aggregate
  apply List.map_congr_left
  intro k hk
  have hgrp : reGroupRows ((rows.filterMap keyOf).dedup.map (aggRowFor rows)) k =
      [aggRowFor rows k] := by
    unfold reGroupRows
    rw [List.filter_map]
    have hred : List.filter ((fun a : AggRow => a.key == k) ∘ aggRowFor rows)
        ((rows.filterMap keyOf).dedup) =
        List.filter (fun k2 : Key => k2 == k) ((rows.filterMap keyOf).dedup) := rfl
    rw [hred, List.filter_beq, List.count_eq_one_of_mem (aggKeys_nodup rows) hk]
    rfl
  rw [hgrp]
  show AggRow.mk k (meanOpt [(aggRowFor rows k).gisLat])
      (meanOpt [(aggRowFor rows k).gisLong])
      ([(aggRowFor rows k).initialCost].sum) = aggRowFor rows k
  rw [meanOpt_singleton, meanOpt_singleton, List.sum_singleton]
  rfl

theorem filterMap_keyOf_of_filter_isSome (rows : List Row) :
    (rows.filter fun r => (keyOf r).isSome).filterMap keyOf =
      rows.filterMap keyOf := by
  induction rows with
  | nil => rfl
  | cons r t ih =>
    cases h : keyOf r with
    | none => simp [List.filter_cons, List.filterMap_cons, h, ih]
    | some k => simp [List.filter_cons, List.filterMap_cons, h, ih]

theorem groupRows_of_filter_isSome (rows : List Row) (k : Key) :
    groupRows (rows.filter fun r => (keyOf r).isSome) k = groupRows rows k := by
  unfold groupRows
  rw [List.filter_filter]
  apply List.filter_congr
  intro r _
  cases h : keyOf r <;> simp [h]

/-- Claim C10: a row with a missing value in any of the 11 key columns
contributes to no aggregated output row — dropping all such rows first leaves
the aggregation unchanged — and the number of output rows is the number of
distinct non-null key tuples. -/
theorem null_key_rows_excluded (rows : List Row) :
    aggregate (rows.filter fun r => (keyOf r).isSome) = aggregate rows
    ∧ (aggregate rows).length = ((rows.filterMap keyOf).dedup).length := by
  constructor
  · unfold aggregate
    rw [filterMap_keyOf_of_filter_isSome]
    apply List.map_congr_left
    intro k _
    unfold aggRowFor
    rw [groupRows_of_filter_isSome]
  · unfold aggregate
    rw [List.length_map]

/-- Claim C5: permuting the rows of the input table permutes (only) the rows of
the filtered-and-aggregated output: the output is the same up to row order. -/
theorem process_data_perm_invariant (raw1 raw2 : List Row)
    (h : raw1.Perm raw2) :
    (process_data raw1).Perm (process_data raw2) := by
  have hf : (filterRows raw1).Perm (filterRows raw2) :=
    (h.map withDate).filter keepYear
  unfold process_data
  cases hfil : filterRows raw1 with
  | nil =>
    rw [hfil] at hf
    have h2 : filterRows raw2 = [] := hf.symm.eq_nil
    rw [hfil] at *
    simp [h2]
  | cons a t =>
    rw [hfil] at hf
    have h2 : filterRows raw2 ≠ [] := by
      intro hnil
      rw [hnil] at hf
      exact List.cons_ne_nil a t hf.eq_nil
    have h2e : (filterRows raw2).isEmpty = false := by
      cases hc : filterRows raw2 with
      | nil => exact absurd hc h2
      | cons b u => rfl
    rw [hfil] at *
    simp only [List.isEmpty_cons, h2e, Bool.false_eq_true, if_false]
    exact hfil ▸ aggregate_perm hf |>.symm |>.symm

/-- Witness for C5: swapping the two rows of a concrete table permutes the
aggregated output. -/
theorem process_data_perm_invariant_witness :
    (process_data [sampleRow1, sampleRow2]).Perm
      (process_data [sampleRow2, sampleRow1]) :=
  process_data_perm_invariant [sampleRow1, sampleRow2] [sampleRow2, sampleRow1]
    (List.Perm.swap sampleRow2 sampleRow1 [])

/-- A raw sample row whose Approved date falls in 2022. -/
def sampleRow2022 : Row :=
  { borough := some "BROOKLYN", jobType := some "A1", jobStatus := some "D",
    approved := some "10/05/2022", jobNum := some "300000003",
    buildingType := some "OTHERS", preFilingDate := some "01/04/2022",
    buildingClass := some "B2", jobDescription := some "ALTERATION",
    fullyPaid := some "Y", dateApproved := none,
    gisLat := none, gisLong := none, initialCost := some 50,
    plumbing := none, mechanical := none, boiler := some "X",
    fuelBurning := none, fuelStorage := none, standpipe := none,
    sprinkler := none, fireAlarm := none, equipment := none,
    fireSuppression := none, curbCut := none, other := none }

/-- Claim C2: when no row's parsed Approved date falls in 2023 or 2024, the
transformer returns the empty table and the driver stops: neither the
aggregated CSV nor the chart is written (and no error path is taken — the model
of main has no failure outcome on this branch). -/
theorem empty_filter_stops_pipeline (raw : List Row)
    (h : ∀ r ∈ raw, ∀ d : Date, (withDate r).dateApproved = some d →
      d.year ≠ 2023 ∧ d.year ≠ 2024) :
    process_data raw = [] ∧ runPipeline raw = ⟨none, none⟩ := by
  have hfil : filterRows raw = [] := by
    unfold filterRows
    rw [List.filter_eq_nil_iff]
    intro r hr
    rw [List.mem_map] at hr
    obtain ⟨r0, hr0, rfl⟩ := hr
    unfold keepYear
    cases hda : (withDate r0).dateApproved with
    | none => simp [hda]
    | some d =>
      obtain ⟨h23, h24⟩ := h r0 hr0 d hda
      simp [hda, h23, h24]
  have hproc : process_data raw = [] := by
    unfold process_data
    rw [hfil]
    rfl
  refine ⟨hproc, ?_⟩
  unfold runPipeline
  rw [hproc]
  rfl

/-- Witness for C2 at a one-row table dated 10/05/2022. -/
theorem empty_filter_stops_pipeline_witness :
    process_data [sampleRow2022] = [] ∧
      runPipeline [sampleRow2022] = ⟨none, none⟩ :=
  empty_filter_stops_pipeline [sampleRow2022] (by
    intro r hr d hd
    rw [List.mem_singleton] at hr
    subst hr
    have hp : (withDate sampleRow2022).dateApproved = some ⟨2022, 5, 10⟩ := by
      decide
    rw [hp] at hd
    injection hd with hd2
    subst hd2
    exact ⟨by decide, by decide⟩)

/-- Claim C8: with the dated raw file already present, a run downloads nothing,
and when the file holds the same table a remote fetch would load, the run's
outputs equal those of a run that did download. -/
theorem fetch_skip_same_output (st st2 : FetchState) (remote : List Row)
    (hex : st.rawFileExists = true) (hsame : st.rawFileContents = remote)
    (hex2 : st2.rawFileExists = false) :
    (runWithFetch st remote).2 = false ∧
      (runWithFetch st remote).1 = (runWithFetch st2 remote).1 := by
  unfold runWithFetch fetchStep
  rw [hex, hex2, hsame]
  exact ⟨rfl, rfl⟩

/-- Witness for C8: file present and holding the same one-row table. -/
theorem fetch_skip_same_output_witness :
    (runWithFetch ⟨true, [sampleRow1]⟩ [sampleRow1]).2 = false ∧
      (runWithFetch ⟨true, [sampleRow1]⟩ [sampleRow1]).1 =
        (runWithFetch ⟨false, []⟩ [sampleRow1]).1 :=
  fetch_skip_same_output ⟨true, [sampleRow1]⟩ ⟨false, []⟩ [sampleRow1]
    rfl rfl rfl

/-- Claim C6: in the reporter's indicator conversion, a melted cell holding
exactly the string X becomes a long-form row with count 1, and a cell holding
anything else (a different string, or missing) becomes one with count 0. -/
theorem indicator_cell_count (ms : List (Option Date × String × Option String))
    (d : Option Date) (c : String) (v : Option String)
    (hmem : (d, c, v) ∈ ms) :
    (v = some "X" → (⟨d, c, some 1⟩ : LongRow) ∈ assignCounts ms)
    ∧ (v ≠ some "X" → (⟨d, c, some 0⟩ : LongRow) ∈ assignCounts ms) := by
  constructor
  · intro hx
    unfold assignCounts
    rw [List.mem_map]
    exact ⟨(d, c, v), hmem, by simp [toCount, hx]⟩
  · intro hx
    unfold assignCounts
    rw [List.mem_map]
    exact ⟨(d, c, v), hmem, by simp [toCount, hx]⟩

/-- Witness for C6 at the melted one-row table: the Plumbing cell of sampleRow1
holds X. -/
theorem indicator_cell_count_witness :
    (some "X" = some "X" →
      (⟨some ⟨2023, 3, 15⟩, "Plumbing", some 1⟩ : LongRow) ∈
        assignCounts (meltRows [sampleRow1]))
    ∧ (some "X" ≠ some "X" →
      (⟨some ⟨2023, 3, 15⟩, "Plumbing", some 0⟩ : LongRow) ∈
        assignCounts (meltRows [sampleRow1])) :=
  indicator_cell_count (meltRows [sampleRow1])
    (some ⟨2023, 3, 15⟩) "Plumbing" (some "X") (by decide)

/-- A filtered-table row dated in May 2023 whose twelve indicator cells are all
missing. -/
def noIndicatorRow : Row :=
  { borough := some "BRONX", jobType := some "A3", jobStatus := some "P",
    approved := some "10/05/2023", jobNum := some "200000004",
    buildingType := some "OTHERS", preFilingDate := some "02/02/2023",
    buildingClass := some "C1", jobDescription := some "MINOR WORK",
    fullyPaid := some "Y", dateApproved := some ⟨2023, 5, 10⟩,
    gisLat := none, gisLong := none, initialCost := some 10,
    plumbing := none, mechanical := none, boiler := none,
    fuelBurning := none, fuelStorage := none, standpipe := none,
    sprinkler := none, fireAlarm := none, equipment := none,
    fireSuppression := none, curbCut := none, other := none }

/-- Counterexample to C7 as stated: on a table whose single row has every
indicator cell missing, nothing is dropped before the monthly bucketing — all
twelve long-form rows survive, and the row's month appears on the matrix (its
counts 0), so a row with a missing indicator cell does contribute a row to the
month-by-category matrix. -/
theorem missing_cells_still_contribute :
    (∀ c ∈ columnsOfInterest, indicatorValue noIndicatorRow c = none)
    ∧ (longForm [noIndicatorRow]).length = 12
    ∧ chartMonths [noIndicatorRow] = [(2023, 5)]
    ∧ monthlyCount [noIndicatorRow] (2023, 5) "Plumbing" = 0 := by
  decide

/-- Claim C7 amended: the dropna on the Count column drops nothing, because the
conversion writes a present count (0 or 1) on every long-form row; in
particular a row whose indicator cell was missing still contributes a
count-0 long-form row to the monthly bucketing. -/
theorem dropna_count_noop (rows : List Row) :
    longForm rows = assignCounts (meltRows rows)
    ∧ ∀ lr ∈ longForm rows, lr.count = some 0 ∨ lr.count = some 1 := by
  have hid : dropnaCount (assignCounts (meltRows rows)) =
      assignCounts (meltRows rows) := by
    unfold dropnaCount
    rw [List.filter_eq_self]
    intro lr hmem
    unfold assignCounts at hmem
    rw [List.mem_map] at hmem
    obtain ⟨m, _, rfl⟩ := hmem
    rfl
  refine ⟨hid, ?_⟩
  intro lr hmem
  unfold longForm at hmem
  rw [hid] at hmem
  unfold assignCounts at hmem
  rw [List.mem_map] at hmem
  obtain ⟨m, _, rfl⟩ := hmem
  unfold toCount
  by_cases hx : m.2.2 = some "X"
  · right
    simp [hx]
  · left
    simp [hx]

theorem parseDate_eq_some_iff (s : String) (d m y : Nat) :
    parseDate s = some ⟨y, m, d⟩ ↔
      (specDMYFormat s d m y = true ∧ dateInBounds y m d = true) := by
  unfold parseDate specDMYFormat
  cases hsp : splitOnSlash s.data with
  | nil => simp
  | cons df rest =>
    cases rest with
    | nil => simp
    | cons mf rest2 =>
      cases rest2 with
      | nil => simp
      | cons yf rest3 =>
        cases rest3 with
        | cons e rest4 => simp
        | nil =>
          dsimp only
          cases hd : dayField? df with
          | none => simp [hd]
          | some dv =>
            cases hm : monthField? mf with
            | none => simp [hd, hm]
            | some mv =>
              cases hy : yearField? yf with
              | none => simp [hd, hm, hy]
              | some yv =>
                dsimp only
                constructor
                · intro hsome
                  by_cases hval : 1 ≤ mv ∧ mv ≤ 12 ∧ 1 ≤ dv ∧
                      dv ≤ daysInMonth yv mv ∧ dateInBounds yv mv dv = true
                  · rw [if_pos hval] at hsome
                    obtain ⟨h1, h2, h3, h4, h5⟩ := hval
                    injection hsome with heq
                    injection heq with e1 e2 e3
                    subst e1
                    subst e2
                    subst e3
                    simp [h1, h2, h3, h4, h5]
                  · rw [if_neg hval] at hsome
                    exact absurd hsome (by simp)
                · intro hfmt
                  obtain ⟨hbool, hbound⟩ := hfmt
                  simp only [beq_iff_eq, Bool.and_eq_true,
                    decide_eq_true_eq] at hbool
                  have hdq := hbool.1.1.1.1.1.1
                  have hmq := hbool.1.1.1.1.1.2
                  have hyq := hbool.1.1.1.1.2
                  have hm1 := hbool.1.1.1.2
                  have hm2 := hbool.1.1.2
                  have hd1 := hbool.1.2
                  have hd2 := hbool.2
                  injection hdq with e1
                  subst e1
                  injection hmq with e2
                  subst e2
                  injection hyq with e3
                  subst e3
                  rw [if_pos ⟨hm1, hm2, hd1, hd2, hbound⟩]

/-- The %d pattern's space-padded alternative: strptime parses a space-padded
day, so the model does too. -/
theorem parseDate_space_padded_day :
    parseDate " 1/03/2023" = some ⟨2023, 3, 1⟩ := by
  decide

/-- The %d and %Y patterns match any Unicode decimal digit, read positionally
by int(): a day written 1 followed by an Arabic-Indic five parses as 15, while
the %m pattern admits no Unicode second digit. -/
theorem parseDate_unicode_digits :
    parseDate "1٥/03/2023" = some ⟨2023, 3, 15⟩
    ∧ parseDate "15/03/٢٠٢٣" = some ⟨2023, 3, 15⟩
    ∧ parseDate "15/1٥/2023" = none := by
  decide

/-- Counterexample to C3 as stated: 01/01/1500 is a day/month/year string for
the valid calendar date 1500-01-01, yet the parse yields a null date, because
pandas coerces dates outside the datetime64[ns] window to NaT. -/
theorem parseDate_dmy_counterexample :
    specDMYFormat "01/01/1500" 1 1 1500 = true
    ∧ parseDate "01/01/1500" = none := by
  decide

/-- Claim C3, amended: a day/month/year string whose calendar date lies inside
the pandas datetime64[ns] window (1677-09-22 through 2262-04-11) parses to that
date; a string with no day/month/year reading parses to a null date; and every
row of the filtered set carries a present parsed date, so null-date rows are
excluded from it. -/
theorem parseDate_dmy_correct :
    (∀ s d m y, specDMYFormat s d m y = true → dateInBounds y m d = true →
      parseDate s = some ⟨y, m, d⟩)
    ∧ (∀ s, (∀ d m y, specDMYFormat s d m y = false) → parseDate s = none)
    ∧ (∀ rows : List Row, ∀ r ∈ filterRows rows, r.dateApproved.isSome = true) := by
  refine ⟨?_, ?_, ?_⟩
  · intro s d m y hfmt hb
    exact (parseDate_eq_some_iff s d m y).mpr ⟨hfmt, hb⟩
  · intro s hnone
    cases hq : parseDate s with
    | none => rfl
    | some dd =>
      have heta : parseDate s = some ⟨dd.year, dd.month, dd.day⟩ := by rw [hq]
      have h2 := (parseDate_eq_some_iff s dd.day dd.month dd.year).mp heta
      rw [hnone dd.day dd.month dd.year] at h2
      exact absurd h2.1 (by simp)
  · intro rows r hr
    unfold filterRows at hr
    rw [List.mem_filter] at hr
    have hk := hr.2
    unfold keepYear at hk
    cases hda : r.dateApproved with
    | none => rw [hda] at hk; exact absurd hk (by simp)
    | some d => rfl

/-- A raw row whose Approved date parses to January 2023, all other columns
present and distinct from the other test rows. -/
def rowJan2023 : Row :=
  { borough := some "STATEN ISLAND", jobType := some "DM", jobStatus := some "Q",
    approved := some "15/01/2023", jobNum := some "500000005",
    buildingType := some "OTHERS", preFilingDate := some "03/01/2023",
    buildingClass := some "D3", jobDescription := some "DEMOLITION",
    fullyPaid := some "N", dateApproved := none,
    gisLat := none, gisLong := none, initialCost := some 75,
    plumbing := some "X", mechanical := none, boiler := none,
    fuelBurning := none, fuelStorage := none, standpipe := none,
    sprinkler := none, fireAlarm := none, equipment := none,
    fireSuppression := none, curbCut := none, other := none }

/-- A raw row whose Approved date parses to December 2024, all other columns
present and distinct from the other test rows. -/
def rowDec2024 : Row :=
  { borough := some "MANHATTAN", jobType := some "NB", jobStatus := some "E",
    approved := some "20/12/2024", jobNum := some "600000006",
    buildingType := some "1-2-3 FAMILY", preFilingDate := some "30/11/2024",
    buildingClass := some "A5", jobDescription := some "ERECTION",
    fullyPaid := some "Y", dateApproved := none,
    gisLat := none, gisLong := none, initialCost := some 300,
    plumbing := none, mechanical := none, boiler := none,
    fuelBurning := none, fuelStorage := none, standpipe := none,
    sprinkler := some "X", fireAlarm := none, equipment := none,
    fireSuppression := none, curbCut := none, other := none }

/-- The 3-row synthetic table of the end-to-end check: one row dated 2022, one
dated January 2023, one dated December 2024. -/
def threeRows : List Row :=
  [sampleRow2022, rowJan2023, rowDec2024]

/-- Claim C9: on the 3-row synthetic table the aggregated output has exactly 2
rows and the chart's month axis has exactly 2 distinct months. -/
theorem end_to_end_three_rows :
    (process_data threeRows).length = 2
    ∧ (chartMonths (filterRows threeRows)).length = 2 := by
  decide
